import Mathlib

/-!
Verification development for the Kuvera mutual-fund tax analyzer
(`mutual_fund_tax_analyzer.py`).

The Python source is shallowly embedded here:

* spreadsheet cells are `Option String` (`none` models a pandas NaN; a
  present cell is modelled by the text `str(val)` would produce for it);
* a row is a `List` of cells; `row.iloc[k]` beyond the row's width raises
  `IndexError`, modelled with `Except`;
* Python `float` values produced by parsing decimal text are modelled
  exactly as a scaled integer `PyNum` (mantissa and number of decimal
  digits); `PyNum.toRat` gives its numeric value.  IEEE rounding is not
  modelled: every claim is about parse success/defaults and exact decimal
  constants;
* `datetime.strptime` is modelled for the five format strings the source
  uses, including the regex alternation order CPython uses for `%d`/`%m`
  (two-digit alternatives first, then a single nonzero digit), the
  case-insensitive month names, `\s+` for literal spaces, the
  exactly-four-digit `%Y`, full-input consumption, and the calendar
  validity check performed by the `datetime` constructor.  Character
  classes (`isdigit`, whitespace) are modelled over their ASCII behaviour,
  which covers the data formats involved.  Logging (the date-parse
  warning, info prints) is a side effect outside the model.

All definitions are structural recursions so that concrete runs reduce
inside the kernel.
-/

namespace Kuvera

/-- A python float produced by parsing plain decimal text, kept exact:
the value is `mant / 10 ^ scale`. -/
structure PyNum where
  mant : Int
  scale : Nat
deriving DecidableEq, Repr

/-- Numeric value of a `PyNum`. -/
def PyNum.toRat (v : PyNum) : ℚ := (v.mant : ℚ) / (10 : ℚ) ^ v.scale

/-- A calendar date (the `datetime` values in the source are all at
midnight, so year/month/day determine every comparison made). -/
structure Date where
  year : Nat
  month : Nat
  day : Nat
deriving DecidableEq, Repr

/-- Comparison of `datetime` values restricted to midnight: lexicographic on
(year, month, day). -/
def dateLt (a b : Date) : Bool :=
  decide (a.year < b.year ∨ (a.year = b.year ∧
    (a.month < b.month ∨ (a.month = b.month ∧ a.day < b.day))))

/-- The constant `TAX_CHANGE_DATE = datetime(2024, 7, 23)` (line 35). -/
def TAX_CHANGE_DATE : Date := ⟨2024, 7, 23⟩

/-- The two exception kinds the per-row handler catches (line 146). -/
inductive PyErr where
  | valueError
  | indexError
deriving DecidableEq, Repr

/-- A spreadsheet cell: `none` is a pandas NaN / absent value. -/
abbrev Cell := Option String

/-! ### Character-list helpers (Python string primitives) -/

/-- Python `str.strip()` (whitespace on both ends). -/
def trimL (s : List Char) : List Char :=
  ((s.dropWhile Char.isWhitespace).reverse.dropWhile Char.isWhitespace).reverse

/-- Python `str.strip('"')`. -/
def stripQuotesL (s : List Char) : List Char :=
  ((s.dropWhile (fun c => c = '"')).reverse.dropWhile (fun c => c = '"')).reverse

/-- Python `str.replace(c, '')` for a single-character pattern. -/
def removeChar (c : Char) (s : List Char) : List Char :=
  s.filter (fun d => d ≠ c)

/-- Python `str.lower()` as applied by `strptime` to its input. -/
def lowerL (s : List Char) : List Char := s.map Char.toLower

/-- Python substring containment `pat in s`. -/
def containsL (pat : List Char) : List Char → Bool
  | [] => pat.isEmpty
  | c :: cs => pat.isPrefixOf (c :: cs) || containsL pat cs

/-- Text strictly before the first occurrence of `pat`
(`s.split(pat)[0]`); the whole string when `pat` does not occur. -/
def beforeFirst (pat : List Char) : List Char → List Char
  | [] => []
  | c :: cs => if pat.isPrefixOf (c :: cs) then [] else c :: beforeFirst pat cs

/-- Text strictly after the first occurrence of `pat`; empty when `pat`
does not occur. -/
def afterFirst (pat : List Char) : List Char → List Char
  | [] => []
  | c :: cs =>
    if pat.isPrefixOf (c :: cs) then (c :: cs).drop pat.length
    else afterFirst pat cs

/-- Python `' '.join(...)` over already-stringified cells (line 78). -/
def joinSp : List (List Char) → List Char
  | [] => []
  | [s] => s
  | s :: ss => s ++ ' ' :: joinSp ss

/-- Python `str.isdigit()` on ASCII text: nonempty and all digits. -/
def pyIsdigit (s : List Char) : Bool :=
  !s.isEmpty && s.all Char.isDigit

/-- Digit value of an ASCII digit character. -/
def dv (c : Char) : Nat := c.toNat - 48

/-- Python `int(...)` on an all-digit string. -/
def digitsVal (s : List Char) : Nat :=
  s.foldl (fun n c => 10 * n + dv c) 0

/-! ### Python `float()` on plain decimal literals -/

/-- Split a leading run of digits from the rest. -/
def takeDigits : List Char → List Char × List Char
  | [] => ([], [])
  | c :: cs =>
    if c.isDigit then
      let p := takeDigits cs
      (c :: p.1, p.2)
    else ([], c :: cs)

/-- Mantissa of `ip.fp` as an integer. -/
def mantissaOf (ip fp : List Char) : Int :=
  Int.ofNat (digitsVal ip * 10 ^ fp.length + digitsVal fp)

/-- Sign-stripped body of a float literal: `digits`, `digits.digits`,
`digits.` or `.digits`. -/
def pyFloatCore? (sgn : Int) (t : List Char) : Option PyNum :=
  let p := takeDigits t
  match p.2 with
  | [] => if p.1 = [] then none else some ⟨sgn * Int.ofNat (digitsVal p.1), 0⟩
  | '.' :: r =>
    let q := takeDigits r
    if q.2 = [] ∧ (p.1 ≠ [] ∨ q.1 ≠ []) then
      some ⟨sgn * mantissaOf p.1 q.1, q.1.length⟩
    else none
  | _ => none

/-- Models CPython `float()` on the plain decimal literals occurring in
the data: surrounding whitespace, an optional sign, digits with at most
one decimal point.  Anything else is a parse failure (`ValueError`),
modelled as `none`. -/
def pyFloatL? (s : List Char) : Option PyNum :=
  match trimL s with
  | '+' :: r => pyFloatCore? 1 r
  | '-' :: r => pyFloatCore? (-1) r
  | r => pyFloatCore? 1 r

/-- Python `float(s)` with the `ValueError` made explicit. -/
def pyFloatE (s : String) : Except PyErr PyNum :=
  match pyFloatL? s.toList with
  | some v => .ok v
  | none => .error .valueError

/-! ### `parse_date` (lines 161-184)

`datetime.strptime` is modelled per format string.  CPython compiles a
format into a regex over the lowercased input: `%d` becomes
`(3[01]|[12]\d|0[1-9]|[1-9])`, `%m` becomes `(1[0-2]|0[1-9]|[1-9])`,
`%Y` four digits, `%b`/`%B` an alternation of (lower-cased) month names,
a literal space `\s+`; the whole input must be consumed, and the matched
numbers must then form a valid `datetime` (year at least 1, day within
the month).  The alternation order of `%d`/`%m` (two-digit branches
before the single-digit branch) is kept, including the backtracking a
regex engine would do between those alternatives. -/

/-- Regex `\s+`: at least one whitespace character, consumed greedily. -/
def skipWs1 : List Char → Option (List Char)
  | [] => none
  | c :: cs =>
    if c.isWhitespace then some (cs.dropWhile Char.isWhitespace) else none

/-- A literal character of the format string. -/
def expectChar (c : Char) : List Char → Option (List Char)
  | [] => none
  | d :: ds => if d = c then some ds else none

/-- Candidate matches, in regex-alternation order, for the `%d` / `%m`
number fields: the two-digit alternatives (`01`-`maxVal`, no `00`) first,
then a single digit `1`-`9`. -/
def numFieldCands (maxVal : Nat) : List Char → List (Nat × List Char)
  | a :: b :: rest =>
    (if a.isDigit ∧ b.isDigit ∧ 1 ≤ 10 * dv a + dv b ∧ 10 * dv a + dv b ≤ maxVal
      then [(10 * dv a + dv b, rest)] else []) ++
    (if a.isDigit ∧ 1 ≤ dv a then [(dv a, b :: rest)] else [])
  | [a] => if a.isDigit ∧ 1 ≤ dv a then [(dv a, [])] else []
  | [] => []

/-- Field `%Y`: exactly four digits. -/
def year4? : List Char → Option (Nat × List Char)
  | a :: b :: c :: d :: rest =>
    if a.isDigit ∧ b.isDigit ∧ c.isDigit ∧ d.isDigit then
      some (digitsVal [a, b, c, d], rest)
    else none
  | _ => none

/-- Lower-cased `%b` month names. -/
def monthAbbrevs : List (String × Nat) :=
  [("jan", 1), ("feb", 2), ("mar", 3), ("apr", 4), ("may", 5), ("jun", 6),
   ("jul", 7), ("aug", 8), ("sep", 9), ("oct", 10), ("nov", 11), ("dec", 12)]

/-- Lower-cased `%B` month names. -/
def monthFulls : List (String × Nat) :=
  [("january", 1), ("february", 2), ("march", 3), ("april", 4), ("may", 5),
   ("june", 6), ("july", 7), ("august", 8), ("september", 9), ("october", 10),
   ("november", 11), ("december", 12)]

/-- Strip a fixed pattern from the front, if present. -/
def dropPat? (pat s : List Char) : Option (List Char) :=
  if pat.isPrefixOf s then some (s.drop pat.length) else none

/-- Month-name alternation: every name that is a prefix of the input
(the names are mutually prefix-free, so at most one matches). -/
def monthNameCands (names : List (String × Nat)) (s : List Char) :
    List (Nat × List Char) :=
  names.filterMap (fun nm => (dropPat? nm.1.toList s).map (fun r => (nm.2, r)))

/-- Formats `"%b %d, %Y"` and `"%B %d, %Y"` (formats 1 and 2), parametrised by the
month-name table; yields (year, month, day) of the first regex match. -/
def matchTextMonthFmt (names : List (String × Nat)) (s : List Char) :
    Option (Nat × Nat × Nat) :=
  (monthNameCands names s).findSome? (fun mc =>
    (skipWs1 mc.2).bind (fun r2 =>
      (numFieldCands 31 r2).findSome? (fun dc =>
        (expectChar ',' dc.2).bind (fun r4 =>
          (skipWs1 r4).bind (fun r5 =>
            (year4? r5).bind (fun yc =>
              if yc.2 = [] then some (yc.1, mc.1, dc.1) else none))))))

/-- Formats `"%d/%m/%Y"` and `"%d-%m-%Y"` (formats 3 and 5), parametrised by the
separator. -/
def matchDayMonthYearFmt (sep : Char) (s : List Char) :
    Option (Nat × Nat × Nat) :=
  (numFieldCands 31 s).findSome? (fun dc =>
    (expectChar sep dc.2).bind (fun r2 =>
      (numFieldCands 12 r2).findSome? (fun mc =>
        (expectChar sep mc.2).bind (fun r4 =>
          (year4? r4).bind (fun yc =>
            if yc.2 = [] then some (yc.1, mc.1, dc.1) else none)))))

/-- Format `"%Y-%m-%d"` (format 4). -/
def matchIsoFmt (s : List Char) : Option (Nat × Nat × Nat) :=
  (year4? s).bind (fun yc =>
    (expectChar '-' yc.2).bind (fun r2 =>
      (numFieldCands 12 r2).findSome? (fun mc =>
        (expectChar '-' mc.2).bind (fun r4 =>
          (numFieldCands 31 r4).findSome? (fun dc =>
            if dc.2 = [] then some (yc.1, mc.1, dc.1) else none)))))

/-- Gregorian leap year. -/
def isLeap (y : Nat) : Bool :=
  y % 4 = 0 && (y % 100 ≠ 0 || y % 400 = 0)

/-- Days in a month. -/
def daysInMonth (y m : Nat) : Nat :=
  if m = 2 then (if isLeap y then 29 else 28)
  else if m = 4 ∨ m = 6 ∨ m = 9 ∨ m = 11 then 30 else 31

/-- The `datetime(year, month, day)` constructor's validity check, run by
`strptime` after the regex match; failure is a `ValueError` that
`parse_date` treats as "try the next format". -/
def mkDatetime? (ymd : Nat × Nat × Nat) : Option Date :=
  if 1 ≤ ymd.1 ∧ ymd.2.2 ≤ daysInMonth ymd.1 ymd.2.1 then
    some ⟨ymd.1, ymd.2.1, ymd.2.2⟩
  else none

/-- The `formats` list of `parse_date` (lines 169-175), in source order:
abbreviated month, full month, day/month/year with slashes, ISO
year-month-day, day-month-year with hyphens. -/
def dateFormats : List (List Char → Option (Nat × Nat × Nat)) :=
  [matchTextMonthFmt monthAbbrevs,
   matchTextMonthFmt monthFulls,
   matchDayMonthYearFmt '/',
   matchIsoFmt,
   matchDayMonthYearFmt '-']

/-- The text `parse_date` hands to `strptime`: stripped of whitespace
and then of surrounding quote characters (line 166), lower-cased as
`strptime` does internally. -/
def dateCleaned (s : String) : List Char :=
  lowerL (stripQuotesL (trimL s.toList))

/-- Function `parse_date` (lines 161-184): `None` for empty or `"-"` input, else
the first format that both regex-matches and builds a valid `datetime`;
`None` (after a logged warning, not modelled) when all five fail. -/
def parse_date (s : String) : Option Date :=
  if s = "" ∨ trimL s.toList = ['-'] then none
  else dateFormats.findSome? (fun f => (f (dateCleaned s)).bind mkDatetime?)

/-! ### `parse_currency` (lines 186-197) -/

/-- The residue `parse_currency` hands to `float`: the input with the
rupee symbol, commas and quote characters removed, stripped (line 192). -/
def currencyResidue (s : String) : List Char :=
  trimL (removeChar '"' (removeChar ',' (removeChar '₹' s.toList)))

/-- Function `parse_currency` (lines 186-197): `0.0` for empty or `-` input;
otherwise strip symbol/commas/quotes and parse as a float, returning
`0.0` silently on failure. -/
def parse_currency (s : String) : PyNum :=
  if s = "" ∨ trimL s.toList = ['-'] ∨ trimL s.toList = [] then ⟨0, 0⟩
  else (pyFloatL? (currencyResidue s)).getD ⟨0, 0⟩

/-! ### Row access -/

/-- Access `row.iloc[k]`: `IndexError` beyond the row's width. -/
def iloc (row : List Cell) (k : Nat) : Except PyErr Cell :=
  match row[k]? with
  | some c => .ok c
  | none => .error .indexError

/-- The guarded access pattern `len(row) > k and pd.notna(row.iloc[k])`:
`some` exactly when the column exists and is not NaN. -/
def cellAt (row : List Cell) (k : Nat) : Option String :=
  match row[k]? with
  | some (some s) => some s
  | _ => none

/-! ### The transaction record (lines 129-142) -/

/-- The dictionary appended to `transactions` for each accepted row. -/
structure TransactionRecord where
  fund_name : Option String
  folio_number : Option String
  transaction_number : Nat
  units : PyNum
  purchase_date : Option Date
  purchase_value : PyNum
  purchase_nav : PyNum
  redemption_date : Option Date
  redemption_value : PyNum
  redemption_nav : PyNum
  stcg : PyNum
  ltcg : PyNum
deriving DecidableEq, Repr

/-! ### Field extraction (lines 93-127) -/

/-- Line 98: `float(str(row.iloc[1]).replace(',', ''))` when cell 1 is
present and nonblank, else `0`; the unguarded `iloc` can raise
`IndexError`, the `float` a `ValueError`. -/
def extractUnits (row : List Cell) : Except PyErr PyNum :=
  match iloc row 1 with
  | .error e => .error e
  | .ok none => .ok ⟨0, 0⟩
  | .ok (some t) =>
    if trimL t.toList ≠ [] then pyFloatE (String.mk (removeChar ',' t.toList))
    else .ok ⟨0, 0⟩

/-- Lines 101-102: the purchase-date text is cell 2 stripped (empty for
NaN), passed to `parse_date` unless empty or the literal `'nan'`. -/
def extractPurchaseDate (row : List Cell) : Except PyErr (Option Date) :=
  match iloc row 2 with
  | .error e => .error e
  | .ok c2 =>
    let s := match c2 with
      | some t => String.mk (trimL t.toList)
      | none => ""
    .ok (if s ≠ "" ∧ s ≠ "nan" then parse_date s else none)

/-- Lines 109 and 122-123: `float(str(row.iloc[k]))` for the NAV columns
(4 and 10) under the `len(row) > k and pd.notna(...) and strip != ''`
guard; note no comma stripping, and `float` may raise `ValueError`. -/
def extractNav (row : List Cell) (k : Nat) : Except PyErr PyNum :=
  match cellAt row k with
  | none => .ok ⟨0, 0⟩
  | some t => if trimL t.toList ≠ [] then pyFloatE t else .ok ⟨0, 0⟩

/-- Lines 108, 120-121, 124-127: `parse_currency(str(row.iloc[k]))` for
the currency columns (3, 9, 11, 12) under the `len(row) > k and
pd.notna(...)` guard; never raises. -/
def extractCurrencyAt (row : List Cell) (k : Nat) : PyNum :=
  match cellAt row k with
  | none => ⟨0, 0⟩
  | some t => parse_currency t

/-- Lines 118-119: the redemption date from cell 8 when present and
nonblank; `parse_date` returns `None` for unparseable text. -/
def extractRedemptionDate (row : List Cell) : Option Date :=
  match cellAt row 8 with
  | none => none
  | some t =>
    if trimL t.toList ≠ [] then parse_date (String.mk (trimL t.toList))
    else none

/-- The body of the per-row `try` block (lines 91-144): `Except.error`
is a `ValueError`/`IndexError` escaping to the handler at line 146
(which discards the row); `.ok none` is a row that is not transaction
data or has no parseable purchase date; `.ok (some r)` is an emitted
record.  The evaluation order of the source is kept: transaction
number, units, purchase date (with early `continue` when `None`),
then the remaining fields. -/
def buildRecord (row : List Cell) (fund folio : Option String) :
    Except PyErr (Option TransactionRecord) :=
  match iloc row 0 with
  | .error e => .error e
  | .ok none => .ok none
  | .ok (some t0) =>
    if pyIsdigit (trimL t0.toList) then
      match extractUnits row with
      | .error e => .error e
      | .ok units =>
        match extractPurchaseDate row with
        | .error e => .error e
        | .ok none => .ok none
        | .ok (some pdt) =>
          match extractNav row 4 with
          | .error e => .error e
          | .ok pnav =>
            match extractNav row 10 with
            | .error e => .error e
            | .ok rnav =>
              .ok (some
                { fund_name := fund
                  folio_number := folio
                  transaction_number := digitsVal (trimL t0.toList)
                  units := units
                  purchase_date := some pdt
                  purchase_value := extractCurrencyAt row 3
                  purchase_nav := pnav
                  redemption_date := extractRedemptionDate row
                  redemption_value := extractCurrencyAt row 9
                  redemption_nav := rnav
                  stcg := extractCurrencyAt row 11
                  ltcg := extractCurrencyAt row 12 })
    else .ok none

/-! ### The row scan (lines 69-155) -/

/-- The scan state: `current_fund`, `current_folio` and the
`transactions` accumulator. -/
structure ScanState where
  fund : Option String
  folio : Option String
  recs : List TransactionRecord
deriving DecidableEq, Repr

/-- Line 78: `' '.join(str(val) for val in row.values if pd.notna(val))`. -/
def rowLine (row : List Cell) : List Char :=
  joinSp (row.filterMap (fun c => c.map String.toList))

/-- Line 81: `'[ISIN:' in row_str and '] (' in row_str`. -/
def isFundHeaderB (row : List Cell) : Bool :=
  containsL "[ISIN:".toList (rowLine row) && containsL "] (".toList (rowLine row)

/-- Line 86: `'Folio No:' in row_str`. -/
def isFolioHeaderB (row : List Cell) : Bool :=
  containsL "Folio No:".toList (rowLine row)

/-- Line 82: `row_str.split('[ISIN:')[0].strip()`. -/
def fundNameOf (row : List Cell) : String :=
  String.mk (trimL (beforeFirst "[ISIN:".toList (rowLine row)))

/-- Line 87: `row_str.split('Folio No:')[1].strip()` (the text between
the first and any second occurrence of the marker). -/
def folioNumberOf (row : List Cell) : String :=
  String.mk (trimL (beforeFirst "Folio No:".toList
    (afterFirst "Folio No:".toList (rowLine row))))

/-- One iteration of the row loop (lines 76-148): fund-header, else
folio-header, else the `try` block with its
`except (ValueError, IndexError): continue` handler. -/
def processRow (st : ScanState) (row : List Cell) : ScanState :=
  if isFundHeaderB row then { st with fund := some (fundNameOf row) }
  else if isFolioHeaderB row then { st with folio := some (folioNumberOf row) }
  else
    match buildRecord row st.fund st.folio with
    | .ok (some r) => { st with recs := st.recs ++ [r] }
    | _ => st

/-- Function `parse_excel_data` (lines 69-155) restricted to its core: the list of
transaction records the scan accumulates over the grid. -/
def parse_excel_data (grid : List (List Cell)) : List TransactionRecord :=
  (grid.foldl processRow ⟨none, none, []⟩).recs

/-! ### `analyze_transactions` (lines 199-250) and reporting -/

/-- Predicate `redemption_date < TAX_CHANGE_DATE` on a nullable date: pandas `NaT`
compares false. -/
def isBeforeCut (rd : Option Date) : Bool :=
  match rd with
  | some d => dateLt d TAX_CHANGE_DATE
  | none => false

/-- Predicate `redemption_date >= TAX_CHANGE_DATE` on a nullable date. -/
def isAfterCut (rd : Option Date) : Bool :=
  match rd with
  | some d => !dateLt d TAX_CHANGE_DATE
  | none => false

/-- Line 218: rows with a non-null purchase date. -/
def validTransactions (l : List TransactionRecord) : List TransactionRecord :=
  l.filter (fun r => r.purchase_date.isSome)

/-- Line 226: realized rows (non-null redemption date) among the valid
ones. -/
def redeemedTransactions (l : List TransactionRecord) : List TransactionRecord :=
  (validTransactions l).filter (fun r => r.redemption_date.isSome)

/-- Lines 236-238: redeemed strictly before the cutover. -/
def beforeJuly23 (l : List TransactionRecord) : List TransactionRecord :=
  (redeemedTransactions l).filter (fun r => isBeforeCut r.redemption_date)

/-- Lines 240-242: redeemed on or after the cutover. -/
def afterJuly23 (l : List TransactionRecord) : List TransactionRecord :=
  (redeemedTransactions l).filter (fun r => isAfterCut r.redemption_date)

/-- The `transactions_count` column of the 3-row summary report
(lines 257-261): before, after, total. -/
def summaryTransactionCounts (l : List TransactionRecord) : List Nat :=
  [(beforeJuly23 l).length, (afterJuly23 l).length,
   (beforeJuly23 l).length + (afterJuly23 l).length]

/-- The fund names grouped over in `generate_fund_wise_report`. -/
def fundNamesIn (l : List TransactionRecord) : List (Option String) :=
  (l.map (fun r => r.fund_name)).dedup

/-- Function `generate_fund_wise_report` (lines 286-312) restricted to its group
keys and transaction counts: empty for an empty period, else one row per
fund with the number of its transactions. -/
def generate_fund_wise_report (l : List TransactionRecord) :
    List (Option String × Nat) :=
  if l.length = 0 then []
  else (fundNamesIn l).map
    (fun f => (f, (l.filter (fun r => r.fund_name = f)).length))

/-! ### Helper lemmas -/

/-- A non-numeric residue makes `parse_currency` return `0.0` silently. -/
theorem parse_currency_residue_none {s : String}
    (h : pyFloatL? (currencyResidue s) = none) : parse_currency s = ⟨0, 0⟩ := by
  unfold parse_currency
  split
  · rfl
  · rw [h]; rfl

/-- A failed `float()` is a `ValueError`. -/
theorem pyFloatE_none {s : String} (h : pyFloatL? s.toList = none) :
    pyFloatE s = .error .valueError := by
  unfold pyFloatE; rw [h]

/-- Python `float()` never raises `IndexError`. -/
theorem pyFloatE_not_index (s : String) : pyFloatE s ≠ .error .indexError := by
  unfold pyFloatE; split <;> simp

/-- Access via `iloc` succeeds on indices inside the row. -/
theorem iloc_ok_of_lt {row : List Cell} {k : Nat} (h : k < row.length) :
    ∃ c, iloc row k = .ok c := by
  unfold iloc; rw [List.getElem?_eq_getElem h]; exact ⟨_, rfl⟩

/-- guarded access is `none` beyond the row's width. -/
theorem cellAt_none_of_le {row : List Cell} {k : Nat} (h : row.length ≤ k) :
    cellAt row k = none := by
  unfold cellAt; rw [List.getElem?_eq_none h]

/-- Currency columns beyond the row's width default to `0.0`. -/
theorem extractCurrencyAt_default {row : List Cell} {k : Nat}
    (h : row.length ≤ k) : extractCurrencyAt row k = ⟨0, 0⟩ := by
  unfold extractCurrencyAt; rw [cellAt_none_of_le h]

/-- NAV columns beyond the row's width default to `0.0`. -/
theorem extractNav_default {row : List Cell} {k : Nat} (h : row.length ≤ k) :
    extractNav row k = .ok ⟨0, 0⟩ := by
  unfold extractNav; rw [cellAt_none_of_le h]

/-- The redemption-date column beyond the row's width defaults to null. -/
theorem extractRedemptionDate_default {row : List Cell} (h : row.length ≤ 8) :
    extractRedemptionDate row = none := by
  unfold extractRedemptionDate; rw [cellAt_none_of_le h]

/-- NAV extraction never raises `IndexError` (the access is guarded). -/
theorem extractNav_not_index (row : List Cell) (k : Nat) :
    extractNav row k ≠ .error .indexError := by
  unfold extractNav
  split
  · simp
  · split
    · exact pyFloatE_not_index _
    · simp

/-- On rows with at least two columns, units extraction can only raise
`ValueError`. -/
theorem extractUnits_error_val {row : List Cell} {e : PyErr}
    (hlen : 2 ≤ row.length) (h : extractUnits row = .error e) :
    e = .valueError := by
  obtain ⟨c, hc⟩ := iloc_ok_of_lt (show 1 < row.length by omega)
  unfold extractUnits at h
  rw [hc] at h
  cases c with
  | none => simp at h
  | some t =>
    simp only [] at h
    split at h
    · rcases h2 : pyFloatL? (String.mk (removeChar ',' t.toList)).toList with _ | v
      · rw [pyFloatE_none h2] at h
        exact (Except.error.injEq _ _).mp h.symm
      · unfold pyFloatE at h; rw [h2] at h; simp at h
    · simp at h

/-- On rows with at least three columns, purchase-date extraction
succeeds. -/
theorem extractPurchaseDate_ok_of_len {row : List Cell}
    (h : 3 ≤ row.length) : ∃ od, extractPurchaseDate row = .ok od := by
  obtain ⟨c, hc⟩ := iloc_ok_of_lt (show 2 < row.length by omega)
  unfold extractPurchaseDate
  rw [hc]
  exact ⟨_, rfl⟩

/-- A successful purchase-date extraction implies at least three
columns. -/
theorem extractPurchaseDate_ok_len {row : List Cell} {od : Option Date}
    (h : extractPurchaseDate row = .ok od) : 3 ≤ row.length := by
  unfold extractPurchaseDate at h
  cases hg : row[2]? with
  | none => unfold iloc at h; rw [hg] at h; simp at h
  | some c =>
    have := (List.getElem?_eq_some.mp hg).1
    omega

/-- Exhaustive case analysis of the per-row `try` block. -/
theorem buildRecord_cases (row : List Cell) (f fo : Option String) :
    buildRecord row f fo = .ok none ∨
    (∃ e, buildRecord row f fo = .error e) ∨
    (∃ t0 u d pnav rnav,
      iloc row 0 = .ok (some t0) ∧ pyIsdigit (trimL t0.toList) = true ∧
      extractUnits row = .ok u ∧ extractPurchaseDate row = .ok (some d) ∧
      extractNav row 4 = .ok pnav ∧ extractNav row 10 = .ok rnav ∧
      buildRecord row f fo = .ok (some
        { fund_name := f, folio_number := fo,
          transaction_number := digitsVal (trimL t0.toList), units := u,
          purchase_date := some d, purchase_value := extractCurrencyAt row 3,
          purchase_nav := pnav, redemption_date := extractRedemptionDate row,
          redemption_value := extractCurrencyAt row 9, redemption_nav := rnav,
          stcg := extractCurrencyAt row 11,
          ltcg := extractCurrencyAt row 12 })) := by
  cases h0 : iloc row 0 with
  | error e =>
    right; left; exact ⟨e, by unfold buildRecord; rw [h0]⟩
  | ok c0 =>
    cases c0 with
    | none => left; unfold buildRecord; rw [h0]
    | some t0 =>
      cases hd : pyIsdigit (trimL t0.data) with
      | false => left; unfold buildRecord; rw [h0]; simp [hd]
      | true =>
        cases hu : extractUnits row with
        | error e =>
          right; left
          exact ⟨e, by unfold buildRecord; rw [h0]; simp [hd, hu]⟩
        | ok u =>
          cases hp : extractPurchaseDate row with
          | error e =>
            right; left
            exact ⟨e, by unfold buildRecord; rw [h0]; simp [hd, hu, hp]⟩
          | ok od =>
            cases od with
            | none => left; unfold buildRecord; rw [h0]; simp [hd, hu, hp]
            | some d =>
              cases h4 : extractNav row 4 with
              | error e =>
                right; left
                exact ⟨e, by unfold buildRecord; rw [h0]; simp [hd, hu, hp, h4]⟩
              | ok pnav =>
                cases h10 : extractNav row 10 with
                | error e =>
                  right; left
                  exact ⟨e, by unfold buildRecord; rw [h0]; simp [hd, hu, hp, h4, h10]⟩
                | ok rnav =>
                  right; right
                  refine ⟨t0, u, d, pnav, rnav, rfl, hd, rfl, rfl, rfl, rfl, ?_⟩
                  unfold buildRecord
                  rw [h0]; simp [hd, hu, hp, h4, h10]

/-- Inversion of an emitted record: where each field comes from. -/
theorem buildRecord_emit {row : List Cell} {f fo : Option String}
    {r : TransactionRecord} (h : buildRecord row f fo = .ok (some r)) :
    ∃ t0 u d pnav rnav,
      iloc row 0 = .ok (some t0) ∧ pyIsdigit (trimL t0.toList) = true ∧
      extractUnits row = .ok u ∧ extractPurchaseDate row = .ok (some d) ∧
      extractNav row 4 = .ok pnav ∧ extractNav row 10 = .ok rnav ∧
      r = { fund_name := f, folio_number := fo,
            transaction_number := digitsVal (trimL t0.toList), units := u,
            purchase_date := some d, purchase_value := extractCurrencyAt row 3,
            purchase_nav := pnav, redemption_date := extractRedemptionDate row,
            redemption_value := extractCurrencyAt row 9, redemption_nav := rnav,
            stcg := extractCurrencyAt row 11,
            ltcg := extractCurrencyAt row 12 } := by
  rcases buildRecord_cases row f fo with hc | ⟨e, hc⟩ |
    ⟨t0, u, d, pnav, rnav, h0, hd, hu, hp, h4, h10, hc⟩
  · rw [h] at hc; exact absurd hc (by simp)
  · rw [h] at hc; exact absurd hc (by simp)
  · rw [h] at hc
    injection hc with h1
    injection h1 with h2
    exact ⟨t0, u, d, pnav, rnav, h0, hd, hu, hp, h4, h10, h2⟩

/-- The row loop on a fund-header row (lines 81-83). -/
theorem processRow_fund {st : ScanState} {row : List Cell}
    (h : isFundHeaderB row = true) :
    processRow st row = { st with fund := some (fundNameOf row) } := by
  unfold processRow; rw [if_pos h]

/-- A non-fund-header row leaves `current_fund` unchanged. -/
theorem processRow_fund_eq {st : ScanState} {row : List Cell}
    (h : isFundHeaderB row = false) :
    (processRow st row).fund = st.fund := by
  unfold processRow
  simp only [h, Bool.false_eq_true, if_false]
  split
  · rfl
  · split <;> rfl

/-- What can happen to the accumulator on one row. -/
theorem processRow_recs_cases (st : ScanState) (row : List Cell) :
    (processRow st row).recs = st.recs ∨
    ∃ r, buildRecord row st.fund st.folio = .ok (some r) ∧
      (processRow st row).recs = st.recs ++ [r] := by
  unfold processRow
  split
  · left; rfl
  · split
    · left; rfl
    · rcases hb : buildRecord row st.fund st.folio with e | o
      · left; rfl
      · cases o with
        | none => left; rfl
        | some r => right; exact ⟨r, rfl, rfl⟩

/-- A row that is no header and whose builder does not emit leaves the
state unchanged. -/
theorem processRow_id {st : ScanState} {row : List Cell}
    (h1 : isFundHeaderB row = false) (h2 : isFolioHeaderB row = false)
    (h3 : ∀ r, buildRecord row st.fund st.folio ≠ .ok (some r)) :
    processRow st row = st := by
  rcases hb : buildRecord row st.fund st.folio with e | o
  · unfold processRow; simp [h1, h2, hb]
  · cases o with
    | none => unfold processRow; simp [h1, h2, hb]
    | some r => exact absurd hb (h3 r)

/-- Scanning rows without a fund header neither changes `current_fund`
nor emits a record with a different fund name. -/
theorem scan_fund_inherit :
    ∀ (rows : List (List Cell)) (st : ScanState),
      (∀ row ∈ rows, isFundHeaderB row = false) →
      (rows.foldl processRow st).fund = st.fund ∧
      (∀ r ∈ (rows.foldl processRow st).recs,
        r ∈ st.recs ∨ r.fund_name = st.fund) := by
  intro rows
  induction rows with
  | nil => intro st _; exact ⟨rfl, fun r hr => Or.inl hr⟩
  | cons row rest ih =>
    intro st h
    have hhd : isFundHeaderB row = false := h row (by simp)
    have hrest : ∀ row2 ∈ rest, isFundHeaderB row2 = false :=
      fun r2 h2 => h r2 (by simp [h2])
    have hfund : (processRow st row).fund = st.fund := processRow_fund_eq hhd
    obtain ⟨ih1, ih2⟩ := ih (processRow st row) hrest
    rw [List.foldl_cons]
    refine ⟨by rw [ih1, hfund], ?_⟩
    intro r hr
    rcases ih2 r hr with hmem | hf
    · rcases processRow_recs_cases st row with hc | ⟨r2, hb, hc⟩
      · rw [hc] at hmem; exact Or.inl hmem
      · rw [hc] at hmem
        rcases List.mem_append.mp hmem with h1 | h1
        · exact Or.inl h1
        · have hrr : r = r2 := by simpa using h1
          obtain ⟨t0, u, d, pnav, rnav, _, _, _, _, _, _, hrec⟩ :=
            buildRecord_emit hb
          right; rw [hrr, hrec]
    · right; rw [hf, hfund]

/-- Every record the scan ever appends has a non-null purchase date. -/
theorem scan_psome :
    ∀ (rows : List (List Cell)) (st : ScanState),
      (∀ r ∈ st.recs, r.purchase_date.isSome = true) →
      ∀ r ∈ (rows.foldl processRow st).recs, r.purchase_date.isSome = true := by
  intro rows
  induction rows with
  | nil => intro st h; exact h
  | cons row rest ih =>
    intro st h
    rw [List.foldl_cons]
    refine ih (processRow st row) ?_
    intro r hr
    rcases processRow_recs_cases st row with hc | ⟨r2, hb, hc⟩
    · rw [hc] at hr; exact h r hr
    · rw [hc] at hr
      rcases List.mem_append.mp hr with h1 | h1
      · exact h r h1
      · have hrr : r = r2 := by simpa using h1
        obtain ⟨t0, u, d, pnav, rnav, _, _, _, _, _, _, hrec⟩ :=
          buildRecord_emit hb
        rw [hrr, hrec]
        rfl

/-- Splitting a list by a predicate and its pointwise complement
preserves the length. -/
theorem filter_split_length {α : Type} (p q : α → Bool) :
    ∀ l : List α, (∀ x ∈ l, q x = !p x) →
      (l.filter p).length + (l.filter q).length = l.length := by
  intro l
  induction l with
  | nil => intro _; simp
  | cons a t ih =>
    intro h
    have ha : q a = !p a := h a (by simp)
    have ht : ∀ x ∈ t, q x = !p x := fun x hx => h x (by simp [hx])
    have iht := ih ht
    cases hp : p a <;> simp [List.filter_cons, hp, ha] <;> omega

/-- A units `ValueError` escapes the builder. -/
theorem buildRecord_units_error {row : List Cell} {f fo : Option String}
    {t0 : String} {e : PyErr} (h0 : iloc row 0 = .ok (some t0))
    (hd : pyIsdigit (trimL t0.data) = true)
    (hu : extractUnits row = .error e) :
    buildRecord row f fo = .error e := by
  unfold buildRecord; rw [h0]; simp [hd, hu]

/-- On rows with at least three columns the builder never raises
`IndexError` (every later access is guarded). -/
theorem buildRecord_not_index {row : List Cell} {f fo : Option String}
    (hlen : 3 ≤ row.length) :
    buildRecord row f fo ≠ .error .indexError := by
  intro hb
  obtain ⟨c0, hc0⟩ := iloc_ok_of_lt (show 0 < row.length by omega)
  unfold buildRecord at hb
  rw [hc0] at hb
  cases c0 with
  | none => simp at hb
  | some t0 =>
    cases hd : pyIsdigit (trimL t0.data) with
    | false => simp [hd] at hb
    | true =>
      cases hu : extractUnits row with
      | error e2 =>
        simp [hd, hu] at hb
        have h2 := extractUnits_error_val (show 2 ≤ row.length by omega) hu
        rw [hb] at h2
        exact PyErr.noConfusion h2
      | ok u =>
        obtain ⟨od, hp⟩ := extractPurchaseDate_ok_of_len hlen
        cases od with
        | none => simp [hd, hu, hp] at hb
        | some d =>
          cases h4 : extractNav row 4 with
          | error e4 =>
            simp [hd, hu, hp, h4] at hb
            exact extractNav_not_index row 4 (by rw [h4, hb])
          | ok pnav =>
            cases h10 : extractNav row 10 with
            | error e10 =>
              simp [hd, hu, hp, h4, h10] at hb
              exact extractNav_not_index row 10 (by rw [h10, hb])
            | ok rnav => simp [hd, hu, hp, h4, h10] at hb

/-- Setting a cell at one index leaves `iloc` at another unchanged. -/
theorem iloc_set_ne {row : List Cell} {k j : Nat} {c : Cell} (h : k ≠ j) :
    iloc (row.set k c) j = iloc row j := by
  unfold iloc; rw [List.getElem?_set_ne h]

/-- Setting a cell at one index leaves `cellAt` at another unchanged. -/
theorem cellAt_set_ne {row : List Cell} {k j : Nat} {c : Cell} (h : k ≠ j) :
    cellAt (row.set k c) j = cellAt row j := by
  unfold cellAt; rw [List.getElem?_set_ne h]

/-- Guarded access at an overwritten index. -/
theorem cellAt_set_self (row : List Cell) (k : Nat) (g : String) :
    cellAt (row.set k (some g)) k =
      if k < row.length then some g else none := by
  by_cases h : k < row.length
  · rw [if_pos h]
    unfold cellAt
    rw [List.getElem?_set_self', List.getElem?_eq_getElem h]
    rfl
  · rw [if_neg h]
    unfold cellAt
    rw [List.getElem?_eq_none (by rw [List.length_set]; omega)]

/-- Units extraction ignores cells other than cell 1. -/
theorem extractUnits_set {row : List Cell} {k : Nat} {c : Cell}
    (h : k ≠ 1) : extractUnits (row.set k c) = extractUnits row := by
  unfold extractUnits; rw [iloc_set_ne h]

/-- Purchase-date extraction ignores cells other than cell 2. -/
theorem extractPurchaseDate_set {row : List Cell} {k : Nat} {c : Cell}
    (h : k ≠ 2) :
    extractPurchaseDate (row.set k c) = extractPurchaseDate row := by
  unfold extractPurchaseDate; rw [iloc_set_ne h]

/-- NAV extraction ignores cells at other indices. -/
theorem extractNav_set {row : List Cell} {k j : Nat} {c : Cell}
    (h : k ≠ j) : extractNav (row.set k c) j = extractNav row j := by
  unfold extractNav; rw [cellAt_set_ne h]

/-- Currency extraction ignores cells at other indices. -/
theorem extractCurrencyAt_set_ne {row : List Cell} {k j : Nat} {c : Cell}
    (h : k ≠ j) :
    extractCurrencyAt (row.set k c) j = extractCurrencyAt row j := by
  unfold extractCurrencyAt; rw [cellAt_set_ne h]

/-- Redemption-date extraction ignores cells other than cell 8. -/
theorem extractRedemptionDate_set {row : List Cell} {k : Nat} {c : Cell}
    (h : k ≠ 8) :
    extractRedemptionDate (row.set k c) = extractRedemptionDate row := by
  unfold extractRedemptionDate; rw [cellAt_set_ne h]

/-- A currency column overwritten with non-numeric text reads as 0.0
(whether the column exists or not, thanks to the width guard). -/
theorem extractCurrencyAt_set_bad {row : List Cell} {k : Nat} {g : String}
    (hg : pyFloatL? (currencyResidue g) = none) :
    extractCurrencyAt (row.set k (some g)) k = ⟨0, 0⟩ := by
  by_cases h : k < row.length
  · have hc : cellAt (row.set k (some g)) k = some g := by
      rw [cellAt_set_self, if_pos h]
    unfold extractCurrencyAt
    rw [hc]
    exact parse_currency_residue_none hg
  · have hc : cellAt (row.set k (some g)) k = none := by
      rw [cellAt_set_self, if_neg h]
    unfold extractCurrencyAt
    rw [hc]

/-- The redemption-date column overwritten with non-empty undateable
text reads as null. -/
theorem extractRedemptionDate_set_bad {row : List Cell} {g : String}
    (hne : trimL g.toList ≠ [])
    (hpd : parse_date (String.mk (trimL g.toList)) = none) :
    extractRedemptionDate (row.set 8 (some g)) = none := by
  by_cases h : 8 < row.length
  · have hc : cellAt (row.set 8 (some g)) 8 = some g := by
      rw [cellAt_set_self, if_pos h]
    unfold extractRedemptionDate
    rw [hc]
    show (if trimL g.toList ≠ [] then parse_date (String.mk (trimL g.toList))
          else none) = none
    rw [if_pos hne, hpd]
  · have hc : cellAt (row.set 8 (some g)) 8 = none := by
      rw [cellAt_set_self, if_neg h]
    unfold extractRedemptionDate
    rw [hc]

/-- A non-empty cell 8 failing every date format yields a null
redemption date. -/
theorem extractRedemptionDate_none_of_bad {row : List Cell} {s : String}
    (hc : cellAt row 8 = some s) (hne : trimL s.toList ≠ [])
    (hpd : parse_date (String.mk (trimL s.toList)) = none) :
    extractRedemptionDate row = none := by
  unfold extractRedemptionDate
  rw [hc]
  show (if trimL s.toList ≠ [] then parse_date (String.mk (trimL s.toList))
        else none) = none
  rw [if_pos hne, hpd]

/-- A nonblank NAV cell failing float parsing makes NAV extraction raise
`ValueError`. -/
theorem extractNav_error_of_bad {row : List Cell} {k : Nat} {s : String}
    (hc : cellAt row k = some s) (hne : trimL s.toList ≠ [])
    (hbad : pyFloatL? s.toList = none) :
    extractNav row k = .error .valueError := by
  unfold extractNav
  rw [hc]
  show (if trimL s.toList ≠ [] then pyFloatE s else .ok ⟨0, 0⟩) =
      .error .valueError
  rw [if_pos hne]
  exact pyFloatE_none hbad

/-- A nonblank cell 1 failing float parsing (after comma removal) makes
units extraction raise `ValueError`. -/
theorem extractUnits_error_of_bad {row : List Cell} {s : String}
    (hc : iloc row 1 = .ok (some s)) (hne : trimL s.toList ≠ [])
    (hbad : pyFloatL? (removeChar ',' s.toList) = none) :
    extractUnits row = .error .valueError := by
  unfold extractUnits
  rw [hc]
  show (if trimL s.toList ≠ [] then
          pyFloatE (String.mk (removeChar ',' s.toList))
        else .ok ⟨0, 0⟩) = .error .valueError
  rw [if_pos hne]
  exact pyFloatE_none hbad

/-- Forward construction of an emitted record from its field
extractions. -/
theorem buildRecord_build (f fo : Option String) {row : List Cell}
    {t0 : String} {u : PyNum} {d : Date} {pnav rnav : PyNum}
    (h0 : iloc row 0 = .ok (some t0))
    (hd : pyIsdigit (trimL t0.data) = true)
    (hu : extractUnits row = .ok u)
    (hp : extractPurchaseDate row = .ok (some d))
    (h4 : extractNav row 4 = .ok pnav)
    (h10 : extractNav row 10 = .ok rnav) :
    buildRecord row f fo = .ok (some
      { fund_name := f, folio_number := fo,
        transaction_number := digitsVal (trimL t0.toList), units := u,
        purchase_date := some d, purchase_value := extractCurrencyAt row 3,
        purchase_nav := pnav, redemption_date := extractRedemptionDate row,
        redemption_value := extractCurrencyAt row 9, redemption_nav := rnav,
        stcg := extractCurrencyAt row 11,
        ltcg := extractCurrencyAt row 12 }) := by
  unfold buildRecord
  rw [h0]
  simp [hd, hu, hp, h4, h10]

/-- A NAV `ValueError` at cell 4 escapes the builder. -/
theorem buildRecord_nav4_error {row : List Cell} {f fo : Option String}
    {t0 : String} {u : PyNum}
    (h0 : iloc row 0 = .ok (some t0))
    (hd : pyIsdigit (trimL t0.data) = true)
    (hu : extractUnits row = .ok u)
    (hp : ∃ d, extractPurchaseDate row = .ok (some d))
    (h4 : extractNav row 4 = .error .valueError) :
    buildRecord row f fo = .error .valueError := by
  obtain ⟨d, hp⟩ := hp
  unfold buildRecord
  rw [h0]
  simp [hd, hu, hp, h4]

/-- A NAV `ValueError` at cell 10 escapes the builder. -/
theorem buildRecord_nav10_error {row : List Cell} {f fo : Option String}
    {t0 : String} {u pnav : PyNum}
    (h0 : iloc row 0 = .ok (some t0))
    (hd : pyIsdigit (trimL t0.data) = true)
    (hu : extractUnits row = .ok u)
    (hp : ∃ d, extractPurchaseDate row = .ok (some d))
    (h4 : extractNav row 4 = .ok pnav)
    (h10 : extractNav row 10 = .error .valueError) :
    buildRecord row f fo = .error .valueError := by
  obtain ⟨d, hp⟩ := hp
  unfold buildRecord
  rw [h0]
  simp [hd, hu, hp, h4, h10]

/-- Filtering past a middle element the predicate rejects. -/
theorem filter_drop_middle {α : Type} (p : α → Bool) (l₁ l₂ : List α)
    (a : α) (h : ¬p a = true) :
    (l₁ ++ a :: l₂).filter p = (l₁ ++ l₂).filter p := by
  rw [List.filter_append, List.filter_append, List.filter_cons_of_neg h]

/-! ### Claims -/

/-- C7: currency parsing maps "₹1,23,456.78" to 123456.78, maps both the
placeholder "-" and the empty string to 0.0, and — after stripping the
currency symbol, thousands-separator commas and quote characters —
returns 0.0 silently whenever the residue is not numeric. -/
theorem c7_currency_parsing :
    PyNum.toRat (parse_currency "₹1,23,456.78") = 123456.78 ∧
    parse_currency "-" = ⟨0, 0⟩ ∧
    parse_currency "" = ⟨0, 0⟩ ∧
    (∀ s : String, pyFloatL? (currencyResidue s) = none →
      parse_currency s = ⟨0, 0⟩) := by
  refine ⟨?_, rfl, rfl, fun s h => parse_currency_residue_none h⟩
  have h1 : parse_currency "₹1,23,456.78" = ⟨12345678, 2⟩ := by decide
  rw [h1]
  norm_num [PyNum.toRat]

/-- witness for C7 at the non-numeric residue "N.A.". -/
theorem c7_currency_parsing_witness :
    pyFloatL? (currencyResidue "N.A.") = none ∧
    parse_currency "N.A." = ⟨0, 0⟩ :=
  ⟨by decide, c7_currency_parsing.2.2.2 "N.A." (by decide)⟩

/-- C3: date parsing resolves "Aug 09, 2023", "09/08/2023" (day-first)
and "2023-08-09" all to 2023-08-09, returns null for text matching no
pattern, and tries exactly the five patterns in the fixed source order,
returning the first successful parse. -/
theorem c3_date_format_order :
    parse_date "Aug 09, 2023" = some ⟨2023, 8, 9⟩ ∧
    parse_date "09/08/2023" = some ⟨2023, 8, 9⟩ ∧
    parse_date "2023-08-09" = some ⟨2023, 8, 9⟩ ∧
    parse_date "not a date" = none ∧
    dateFormats = [matchTextMonthFmt monthAbbrevs, matchTextMonthFmt monthFulls,
      matchDayMonthYearFmt '/', matchIsoFmt, matchDayMonthYearFmt '-'] ∧
    (∀ s : String, ¬(s = "" ∨ trimL s.toList = ['-']) →
      parse_date s =
        dateFormats.findSome? (fun f => (f (dateCleaned s)).bind mkDatetime?)) := by
  refine ⟨by decide, by decide, by decide, by decide, rfl, ?_⟩
  intro s h
  unfold parse_date
  rw [if_neg h]

/-- witness for C3 at "09-08-2023". -/
theorem c3_date_format_order_witness :
    parse_date "09-08-2023" =
      dateFormats.findSome?
        (fun f => (f (dateCleaned "09-08-2023")).bind mkDatetime?) :=
  c3_date_format_order.2.2.2.2.2 "09-08-2023" (by decide)

/-- C2: every record the parser emits has a non-null purchase date, and a
transaction-data row whose cell 2 yields no parseable date adds no record
and leaves the scan state unchanged (the scan continues with the next
row). -/
theorem c2_purchase_date_invariant :
    (∀ (grid : List (List Cell)) (r : TransactionRecord),
      r ∈ parse_excel_data grid → r.purchase_date.isSome = true) ∧
    (∀ (st : ScanState) (row : List Cell),
      isFundHeaderB row = false → isFolioHeaderB row = false →
      extractPurchaseDate row = .ok none → processRow st row = st) := by
  constructor
  · intro grid r hr
    exact scan_psome grid ⟨none, none, []⟩ (by simp) r hr
  · intro st row h1 h2 hp
    refine processRow_id h1 h2 ?_
    intro r hb
    obtain ⟨t0, u, d, pnav, rnav, _, _, _, hp2, _, _, _⟩ := buildRecord_emit hb
    rw [hp] at hp2
    injection hp2 with h'
    exact Option.noConfusion h'

/-- witness for C2: a digit-led row with unparseable date is dropped. -/
theorem c2_purchase_date_invariant_witness :
    processRow ⟨none, none, []⟩ [some "1", some "2.0", some "xyz"] =
      ⟨none, none, []⟩ :=
  c2_purchase_date_invariant.2 ⟨none, none, []⟩
    [some "1", some "2.0", some "xyz"] (by decide) (by decide) rfl

/-- C4: a row containing the fund-identifier marker pattern is handled as
a fund-header: `current_fund` becomes the trimmed text before the
'[ISIN:' marker, nothing else of the state changes (no other
classification is attempted), and every record emitted from subsequent
rows up to the next fund-header carries that fund name. -/
theorem c4_fund_header_inheritance :
    ∀ (st : ScanState) (row : List Cell) (rows : List (List Cell)),
      isFundHeaderB row = true →
      (∀ row2 ∈ rows, isFundHeaderB row2 = false) →
      processRow st row = { st with fund := some (fundNameOf row) } ∧
      fundNameOf row =
        String.mk (trimL (beforeFirst "[ISIN:".toList (rowLine row))) ∧
      (∀ r ∈ ((row :: rows).foldl processRow st).recs,
        r ∈ st.recs ∨ r.fund_name = some (fundNameOf row)) := by
  intro st row rows hh hrest
  have h1 : processRow st row = { st with fund := some (fundNameOf row) } :=
    processRow_fund hh
  refine ⟨h1, rfl, ?_⟩
  intro r hr
  rw [List.foldl_cons] at hr
  obtain ⟨hf, hmem⟩ := scan_fund_inherit rows (processRow st row) hrest
  rcases hmem r hr with hmem2 | hfeq
  · rw [h1] at hmem2
    exact Or.inl hmem2
  · rw [h1] at hfeq
    exact Or.inr hfeq

/-- witness for C4: one fund-header row followed by one data row. -/
theorem c4_fund_header_inheritance_witness :
    processRow ⟨none, none, []⟩ [some "Fund A [ISIN:XX123] (Growth)"] =
      { ScanState.mk none none [] with
        fund := some (fundNameOf [some "Fund A [ISIN:XX123] (Growth)"]) } ∧
    fundNameOf [some "Fund A [ISIN:XX123] (Growth)"] =
      String.mk (trimL (beforeFirst "[ISIN:".toList
        (rowLine [some "Fund A [ISIN:XX123] (Growth)"]))) ∧
    (∀ r ∈ (([some "Fund A [ISIN:XX123] (Growth)"] ::
        [[some "1", some "2.5", some "Aug 09, 2023"]]).foldl processRow
          ⟨none, none, []⟩).recs,
      r ∈ (ScanState.mk none none []).recs ∨
        r.fund_name = some (fundNameOf [some "Fund A [ISIN:XX123] (Growth)"])) :=
  c4_fund_header_inheritance ⟨none, none, []⟩
    [some "Fund A [ISIN:XX123] (Growth)"]
    [[some "1", some "2.5", some "Aug 09, 2023"]] (by decide) (by decide)

/-- C5: the partitioner splits the realized records (non-null purchase
and redemption dates) by comparing the redemption date with the fixed
cutover 2024-07-23: the two set sizes sum to the realized count, and
every realized record lies in exactly one of the two sets. -/
theorem c5_partition_complete :
    ∀ recs : List TransactionRecord,
      (beforeJuly23 recs).length + (afterJuly23 recs).length =
        (redeemedTransactions recs).length ∧
      ∀ r ∈ redeemedTransactions recs,
        (r ∈ beforeJuly23 recs ∧ r ∉ afterJuly23 recs) ∨
        (r ∉ beforeJuly23 recs ∧ r ∈ afterJuly23 recs) := by
  intro recs
  have hq : ∀ x ∈ redeemedTransactions recs,
      isAfterCut x.redemption_date = !isBeforeCut x.redemption_date := by
    intro x hx
    have hs : x.redemption_date.isSome = true := (List.mem_filter.mp hx).2
    cases hd : x.redemption_date with
    | none => rw [hd] at hs; simp at hs
    | some d => rfl
  constructor
  · exact filter_split_length _ _ (redeemedTransactions recs) hq
  · intro r hr
    cases hb : isBeforeCut r.redemption_date with
    | true =>
      left
      constructor
      · exact List.mem_filter.mpr ⟨hr, hb⟩
      · intro hmem
        have h2 := (List.mem_filter.mp hmem).2
        rw [hq r hr, hb] at h2
        simp at h2
    | false =>
      right
      constructor
      · intro hmem
        have h2 := (List.mem_filter.mp hmem).2
        rw [hb] at h2
        simp at h2
      · exact List.mem_filter.mpr ⟨hr, by rw [hq r hr, hb]; rfl⟩

/-- A realized record redeemed before the cutover, for the C5 witness. -/
def c5recB : TransactionRecord :=
  ⟨some "F", none, 1, ⟨10, 1⟩, some ⟨2023, 8, 9⟩, ⟨0, 0⟩, ⟨0, 0⟩,
   some ⟨2024, 7, 1⟩, ⟨0, 0⟩, ⟨0, 0⟩, ⟨0, 0⟩, ⟨0, 0⟩⟩

/-- A realized record redeemed after the cutover, for the C5 witness. -/
def c5recA : TransactionRecord :=
  ⟨some "F", none, 2, ⟨10, 1⟩, some ⟨2023, 8, 9⟩, ⟨0, 0⟩, ⟨0, 0⟩,
   some ⟨2024, 8, 1⟩, ⟨0, 0⟩, ⟨0, 0⟩, ⟨0, 0⟩, ⟨0, 0⟩⟩

/-- witness for C5 on a two-record list straddling the cutover. -/
theorem c5_partition_complete_witness :
    (beforeJuly23 [c5recB, c5recA]).length +
        (afterJuly23 [c5recB, c5recA]).length =
      (redeemedTransactions [c5recB, c5recA]).length ∧
    ((c5recB ∈ beforeJuly23 [c5recB, c5recA] ∧
        c5recB ∉ afterJuly23 [c5recB, c5recA]) ∨
     (c5recB ∉ beforeJuly23 [c5recB, c5recA] ∧
        c5recB ∈ afterJuly23 [c5recB, c5recA])) :=
  ⟨(c5_partition_complete [c5recB, c5recA]).1,
   (c5_partition_complete [c5recB, c5recA]).2 c5recB (by decide)⟩

/-- counterexample to C1: a transaction row whose purchase date parses
but whose units cell "abc" fails float parsing is discarded whole (a
`ValueError` reaches the row handler), not emitted with units 0.0. -/
theorem c1_units_error_discards_row :
    parse_date "Aug 09, 2023" = some ⟨2023, 8, 9⟩ ∧
    pyFloatL? (removeChar ',' "abc".toList) = none ∧
    buildRecord [some "1", some "abc", some "Aug 09, 2023"] none none =
      .error .valueError ∧
    parse_excel_data [[some "1", some "abc", some "Aug 09, 2023"]] = [] :=
  ⟨by decide, by decide, rfl, by decide⟩

/-- C1 (amended): on every transaction-data row the builder emits,
overwriting any one of the four currency cells (3 = purchase_value,
9 = redemption_value, 11 = stcg, 12 = ltcg) with text whose residue is
non-numeric still emits the record, with exactly that field defaulted to
0.0 and every other field unchanged; but on every row, a nonblank units
cell (cell 1) that fails float parsing — and likewise a nonblank NAV
cell (4 or 10) — raises a `ValueError` which the row-level handler
catches by discarding that row; in every case the handler leaves the
scan state unchanged, so the scan continues and never aborts. -/
theorem c1_secondary_field_errors :
    (∀ (row : List Cell) (f fo : Option String) (r : TransactionRecord)
        (k : Nat) (g : String),
      buildRecord row f fo = .ok (some r) →
      (k = 3 ∨ k = 9 ∨ k = 11 ∨ k = 12) →
      pyFloatL? (currencyResidue g) = none →
      buildRecord (row.set k (some g)) f fo = .ok (some
        { r with
          purchase_value := if k = 3 then ⟨0, 0⟩ else r.purchase_value,
          redemption_value := if k = 9 then ⟨0, 0⟩ else r.redemption_value,
          stcg := if k = 11 then ⟨0, 0⟩ else r.stcg,
          ltcg := if k = 12 then ⟨0, 0⟩ else r.ltcg })) ∧
    (∀ (row : List Cell) (f fo : Option String) (t0 s : String),
      iloc row 0 = .ok (some t0) → pyIsdigit (trimL t0.toList) = true →
      iloc row 1 = .ok (some s) → trimL s.toList ≠ [] →
      pyFloatL? (removeChar ',' s.toList) = none →
      buildRecord row f fo = .error .valueError) ∧
    (∀ (row : List Cell) (f fo : Option String) (t0 s : String) (u : PyNum),
      iloc row 0 = .ok (some t0) → pyIsdigit (trimL t0.toList) = true →
      extractUnits row = .ok u →
      (∃ d, extractPurchaseDate row = .ok (some d)) →
      cellAt row 4 = some s → trimL s.toList ≠ [] →
      pyFloatL? s.toList = none →
      buildRecord row f fo = .error .valueError) ∧
    (∀ (row : List Cell) (f fo : Option String) (t0 s : String)
        (u pnav : PyNum),
      iloc row 0 = .ok (some t0) → pyIsdigit (trimL t0.toList) = true →
      extractUnits row = .ok u →
      (∃ d, extractPurchaseDate row = .ok (some d)) →
      extractNav row 4 = .ok pnav →
      cellAt row 10 = some s → trimL s.toList ≠ [] →
      pyFloatL? s.toList = none →
      buildRecord row f fo = .error .valueError) ∧
    (∀ (st : ScanState) (row : List Cell) (e : PyErr),
      isFundHeaderB row = false → isFolioHeaderB row = false →
      buildRecord row st.fund st.folio = .error e →
      processRow st row = st) := by
  refine ⟨?_, ?_, ?_, ?_, ?_⟩
  · intro row f fo r k g hb hk hg
    obtain ⟨t0, u, d, pnav, rnav, h0, hd, hu, hp, h4, h10, hrec⟩ :=
      buildRecord_emit hb
    rcases hk with hk | hk | hk | hk <;> subst hk
    · have h0' : iloc (row.set 3 (some g)) 0 = .ok (some t0) := by
        rw [iloc_set_ne (show (3 : Nat) ≠ 0 by decide)]; exact h0
      have hu' : extractUnits (row.set 3 (some g)) = .ok u := by
        rw [extractUnits_set (show (3 : Nat) ≠ 1 by decide)]; exact hu
      have hp' : extractPurchaseDate (row.set 3 (some g)) = .ok (some d) := by
        rw [extractPurchaseDate_set (show (3 : Nat) ≠ 2 by decide)]; exact hp
      have h4' : extractNav (row.set 3 (some g)) 4 = .ok pnav := by
        rw [extractNav_set (show (3 : Nat) ≠ 4 by decide)]; exact h4
      have h10' : extractNav (row.set 3 (some g)) 10 = .ok rnav := by
        rw [extractNav_set (show (3 : Nat) ≠ 10 by decide)]; exact h10
      rw [buildRecord_build f fo h0' hd hu' hp' h4' h10',
        extractCurrencyAt_set_bad hg,
        extractCurrencyAt_set_ne (show (3 : Nat) ≠ 9 by decide),
        extractCurrencyAt_set_ne (show (3 : Nat) ≠ 11 by decide),
        extractCurrencyAt_set_ne (show (3 : Nat) ≠ 12 by decide),
        extractRedemptionDate_set (show (3 : Nat) ≠ 8 by decide), hrec]
      rfl
    · have h0' : iloc (row.set 9 (some g)) 0 = .ok (some t0) := by
        rw [iloc_set_ne (show (9 : Nat) ≠ 0 by decide)]; exact h0
      have hu' : extractUnits (row.set 9 (some g)) = .ok u := by
        rw [extractUnits_set (show (9 : Nat) ≠ 1 by decide)]; exact hu
      have hp' : extractPurchaseDate (row.set 9 (some g)) = .ok (some d) := by
        rw [extractPurchaseDate_set (show (9 : Nat) ≠ 2 by decide)]; exact hp
      have h4' : extractNav (row.set 9 (some g)) 4 = .ok pnav := by
        rw [extractNav_set (show (9 : Nat) ≠ 4 by decide)]; exact h4
      have h10' : extractNav (row.set 9 (some g)) 10 = .ok rnav := by
        rw [extractNav_set (show (9 : Nat) ≠ 10 by decide)]; exact h10
      rw [buildRecord_build f fo h0' hd hu' hp' h4' h10',
        extractCurrencyAt_set_bad hg,
        extractCurrencyAt_set_ne (show (9 : Nat) ≠ 3 by decide),
        extractCurrencyAt_set_ne (show (9 : Nat) ≠ 11 by decide),
        extractCurrencyAt_set_ne (show (9 : Nat) ≠ 12 by decide),
        extractRedemptionDate_set (show (9 : Nat) ≠ 8 by decide), hrec]
      rfl
    · have h0' : iloc (row.set 11 (some g)) 0 = .ok (some t0) := by
        rw [iloc_set_ne (show (11 : Nat) ≠ 0 by decide)]; exact h0
      have hu' : extractUnits (row.set 11 (some g)) = .ok u := by
        rw [extractUnits_set (show (11 : Nat) ≠ 1 by decide)]; exact hu
      have hp' : extractPurchaseDate (row.set 11 (some g)) = .ok (some d) := by
        rw [extractPurchaseDate_set (show (11 : Nat) ≠ 2 by decide)]; exact hp
      have h4' : extractNav (row.set 11 (some g)) 4 = .ok pnav := by
        rw [extractNav_set (show (11 : Nat) ≠ 4 by decide)]; exact h4
      have h10' : extractNav (row.set 11 (some g)) 10 = .ok rnav := by
        rw [extractNav_set (show (11 : Nat) ≠ 10 by decide)]; exact h10
      rw [buildRecord_build f fo h0' hd hu' hp' h4' h10',
        extractCurrencyAt_set_bad hg,
        extractCurrencyAt_set_ne (show (11 : Nat) ≠ 3 by decide),
        extractCurrencyAt_set_ne (show (11 : Nat) ≠ 9 by decide),
        extractCurrencyAt_set_ne (show (11 : Nat) ≠ 12 by decide),
        extractRedemptionDate_set (show (11 : Nat) ≠ 8 by decide), hrec]
      rfl
    · have h0' : iloc (row.set 12 (some g)) 0 = .ok (some t0) := by
        rw [iloc_set_ne (show (12 : Nat) ≠ 0 by decide)]; exact h0
      have hu' : extractUnits (row.set 12 (some g)) = .ok u := by
        rw [extractUnits_set (show (12 : Nat) ≠ 1 by decide)]; exact hu
      have hp' : extractPurchaseDate (row.set 12 (some g)) = .ok (some d) := by
        rw [extractPurchaseDate_set (show (12 : Nat) ≠ 2 by decide)]; exact hp
      have h4' : extractNav (row.set 12 (some g)) 4 = .ok pnav := by
        rw [extractNav_set (show (12 : Nat) ≠ 4 by decide)]; exact h4
      have h10' : extractNav (row.set 12 (some g)) 10 = .ok rnav := by
        rw [extractNav_set (show (12 : Nat) ≠ 10 by decide)]; exact h10
      rw [buildRecord_build f fo h0' hd hu' hp' h4' h10',
        extractCurrencyAt_set_bad hg,
        extractCurrencyAt_set_ne (show (12 : Nat) ≠ 3 by decide),
        extractCurrencyAt_set_ne (show (12 : Nat) ≠ 9 by decide),
        extractCurrencyAt_set_ne (show (12 : Nat) ≠ 11 by decide),
        extractRedemptionDate_set (show (12 : Nat) ≠ 8 by decide), hrec]
      rfl
  · intro row f fo t0 s h0 hd h1 hne hbad
    exact buildRecord_units_error h0 hd (extractUnits_error_of_bad h1 hne hbad)
  · intro row f fo t0 s u h0 hd hu hp hc hne hbad
    exact buildRecord_nav4_error h0 hd hu hp
      (extractNav_error_of_bad hc hne hbad)
  · intro row f fo t0 s u pnav h0 hd hu hp h4 hc hne hbad
    exact buildRecord_nav10_error h0 hd hu hp h4
      (extractNav_error_of_bad hc hne hbad)
  · intro st row e h1 h2 hb
    refine processRow_id h1 h2 ?_
    intro r hr
    rw [hb] at hr
    exact Except.noConfusion hr

/-- Witness row for C1: a full 13-column transaction row with valid
values in every cell. -/
def c1WitRow : List Cell :=
  [some "1", some "2.5", some "Aug 09, 2023", some "₹100.00", some "10.0",
   none, none, none, some "Jul 01, 2024", some "₹120.00", some "12.0",
   some "₹20.00", some "₹30.00"]

/-- The record `c1WitRow` produces. -/
def c1WitRec : TransactionRecord :=
  { fund_name := none, folio_number := none, transaction_number := 1,
    units := ⟨25, 1⟩, purchase_date := some ⟨2023, 8, 9⟩,
    purchase_value := ⟨10000, 2⟩, purchase_nav := ⟨100, 1⟩,
    redemption_date := some ⟨2024, 7, 1⟩, redemption_value := ⟨12000, 2⟩,
    redemption_nav := ⟨120, 1⟩, stcg := ⟨2000, 2⟩, ltcg := ⟨3000, 2⟩ }

/-- witness for C1: corrupting the redemption_value cell of a real row
keeps the record with that one field zeroed; bad units and bad NAV cells
raise `ValueError`; the handler drops such a row and the scan goes on. -/
theorem c1_secondary_field_errors_witness :
    buildRecord (c1WitRow.set 9 (some "N.A.")) none none = .ok (some
      { c1WitRec with redemption_value := ⟨0, 0⟩ }) ∧
    buildRecord [some "1", some "abc", some "Aug 09, 2023"] none none =
      .error .valueError ∧
    buildRecord [some "1", some "2.0", some "Aug 09, 2023", none,
      some "1,234.5"] none none = .error .valueError ∧
    buildRecord [some "1", some "2.0", some "Aug 09, 2023", none,
      some "5.0", none, none, none, none, none, some "1,234.5"] none none =
      .error .valueError ∧
    processRow ⟨none, none, []⟩ [some "1", some "abc", some "Aug 09, 2023"] =
      ⟨none, none, []⟩ :=
  ⟨c1_secondary_field_errors.1 c1WitRow none none c1WitRec 9 "N.A."
      rfl (Or.inr (Or.inl rfl)) (by decide),
   c1_secondary_field_errors.2.1 [some "1", some "abc", some "Aug 09, 2023"]
      none none "1" "abc" rfl (by decide) rfl (by decide) (by decide),
   c1_secondary_field_errors.2.2.1 [some "1", some "2.0", some "Aug 09, 2023",
      none, some "1,234.5"] none none "1" "1,234.5" ⟨20, 1⟩
      rfl (by decide) rfl ⟨⟨2023, 8, 9⟩, rfl⟩ (by decide) (by decide)
      (by decide),
   c1_secondary_field_errors.2.2.2.1 [some "1", some "2.0",
      some "Aug 09, 2023", none, some "5.0", none, none, none, none, none,
      some "1,234.5"] none none "1" "1,234.5" ⟨20, 1⟩ ⟨50, 1⟩
      rfl (by decide) rfl ⟨⟨2023, 8, 9⟩, rfl⟩ rfl (by decide) (by decide)
      (by decide),
   c1_secondary_field_errors.2.2.2.2 ⟨none, none, []⟩
      [some "1", some "abc", some "Aug 09, 2023"] .valueError
      (by decide) (by decide) rfl⟩

/-- counterexample to C6: units "-5" parses to the negative value -5.0
(so units is not non-negative); a NAV cell "1,234.5" raises `ValueError`
instead of being comma-stripped; and unparseable units raise instead of
yielding 0.0. -/
theorem c6_negative_units_and_nav_commas :
    extractUnits [some "1", some "-5"] = .ok ⟨-5, 0⟩ ∧
    PyNum.toRat ⟨-5, 0⟩ < 0 ∧
    extractNav [some "1", some "2", some "d", some "v", some "1,234.5"] 4 =
      .error .valueError ∧
    extractUnits [some "1", some "abc"] = .error .valueError :=
  ⟨rfl, by norm_num [PyNum.toRat], rfl, rfl⟩

/-- C6 (amended): units parsing (cell 1) strips thousands-separator
commas before converting and yields 0.0 for blank cells, but an
unparseable nonblank cell raises `ValueError` (discarding the row)
rather than yielding 0.0, and the parsed value may be negative; NAV
parsing (cells 4 and 10) performs no comma stripping, handing the raw
cell text to `float`. -/
theorem c6_numeric_parsing :
    (∀ (c0 : Cell) (s : String) (rest : List Cell),
      trimL s.toList ≠ [] →
      extractUnits (c0 :: some s :: rest) =
        pyFloatE (String.mk (removeChar ',' s.toList))) ∧
    (∀ (c0 : Cell) (s : String) (rest : List Cell),
      trimL s.toList = [] →
      extractUnits (c0 :: some s :: rest) = .ok ⟨0, 0⟩) ∧
    (∀ (row : List Cell) (k : Nat) (s : String),
      cellAt row k = some s → trimL s.toList ≠ [] →
      extractNav row k = pyFloatE s) ∧
    (∀ s : String, pyFloatL? s.toList = none →
      pyFloatE s = .error .valueError) ∧
    extractUnits [some "1", some "1,234.5"] = .ok ⟨12345, 1⟩ ∧
    extractUnits [some "1", some "-5"] = .ok ⟨-5, 0⟩ := by
  refine ⟨?_, ?_, ?_, fun s h => pyFloatE_none h, rfl, rfl⟩
  · intro c0 s rest hne
    have h1 : iloc (c0 :: some s :: rest) 1 = .ok (some s) := by
      unfold iloc
      rw [show (c0 :: some s :: rest)[1]? = some (some s) by simp]
    unfold extractUnits
    rw [h1]
    show (if trimL s.toList ≠ [] then
            pyFloatE (String.mk (removeChar ',' s.toList))
          else .ok ⟨0, 0⟩) =
        pyFloatE (String.mk (removeChar ',' s.toList))
    rw [if_pos hne]
  · intro c0 s rest hbl
    have h1 : iloc (c0 :: some s :: rest) 1 = .ok (some s) := by
      unfold iloc
      rw [show (c0 :: some s :: rest)[1]? = some (some s) by simp]
    unfold extractUnits
    rw [h1]
    show (if trimL s.toList ≠ [] then
            pyFloatE (String.mk (removeChar ',' s.toList))
          else .ok ⟨0, 0⟩) = .ok ⟨0, 0⟩
    rw [if_neg (fun hn => hn hbl)]
  · intro row k s h hne
    unfold extractNav
    rw [h]
    show (if trimL s.toList ≠ [] then pyFloatE s else .ok ⟨0, 0⟩) = pyFloatE s
    rw [if_pos hne]

/-- witness for C6: comma-stripped units and an uncleaned NAV cell. -/
theorem c6_numeric_parsing_witness :
    extractUnits [some "1", some "9,876.5", some "d"] =
      pyFloatE (String.mk (removeChar ',' "9,876.5".toList)) ∧
    extractNav [some "1", some "2", some "d", some "v", some "1,234.5"] 4 =
      pyFloatE "1,234.5" ∧
    extractUnits [some "1", some "  ", some "d"] = .ok ⟨0, 0⟩ :=
  ⟨c6_numeric_parsing.1 (some "1") "9,876.5" [some "d"] (by decide),
   c6_numeric_parsing.2.2.1 [some "1", some "2", some "d", some "v",
     some "1,234.5"] 4 "1,234.5" (by decide) (by decide),
   c6_numeric_parsing.2.1 (some "1") "  " [some "d"] (by decide)⟩

/-- counterexample to C8: the width-1 transaction row ["7"] makes the
builder raise `IndexError` at the unguarded units access (the handler
then discards the row), instead of building a record with defaulted
fields. -/
theorem c8_width_one_raises :
    buildRecord [some "7"] none none = .error .indexError ∧
    parse_excel_data [[some "7"]] = [] :=
  ⟨rfl, by decide⟩

/-- C8 (amended): a transaction row of width less than 13 builds a record
only when it has at least 3 columns (cells 0-2 are accessed unguarded;
on narrower rows an `IndexError` is raised and caught, discarding the
row), and on a built record every field whose column index lies at or
beyond the row's width holds its default (0.0 numeric, null
redemption_date); with at least 3 columns the builder can raise only
`ValueError`, never an indexing error. -/
theorem c8_short_row_defaults :
    (∀ (row : List Cell) (f fo : Option String) (r : TransactionRecord),
      row.length < 13 → buildRecord row f fo = .ok (some r) →
      3 ≤ row.length ∧
      (row.length ≤ 3 → r.purchase_value = ⟨0, 0⟩) ∧
      (row.length ≤ 4 → r.purchase_nav = ⟨0, 0⟩) ∧
      (row.length ≤ 8 → r.redemption_date = none) ∧
      (row.length ≤ 9 → r.redemption_value = ⟨0, 0⟩) ∧
      (row.length ≤ 10 → r.redemption_nav = ⟨0, 0⟩) ∧
      (row.length ≤ 11 → r.stcg = ⟨0, 0⟩) ∧
      (row.length ≤ 12 → r.ltcg = ⟨0, 0⟩)) ∧
    (∀ (row : List Cell) (f fo : Option String) (e : PyErr),
      3 ≤ row.length → buildRecord row f fo = .error e →
      e = .valueError) := by
  constructor
  · intro row f fo r hlen hb
    obtain ⟨t0, u, d, pnav, rnav, h0, hd, hu, hp, h4, h10, hrec⟩ :=
      buildRecord_emit hb
    have l3 : 3 ≤ row.length := extractPurchaseDate_ok_len hp
    subst hrec
    refine ⟨l3, ?_, ?_, ?_, ?_, ?_, ?_, ?_⟩
    · intro h; exact extractCurrencyAt_default h
    · intro h
      rw [extractNav_default h] at h4
      injection h4 with h4'
      exact h4'.symm
    · intro h; exact extractRedemptionDate_default h
    · intro h; exact extractCurrencyAt_default h
    · intro h
      rw [extractNav_default h] at h10
      injection h10 with h10'
      exact h10'.symm
    · intro h; exact extractCurrencyAt_default h
    · intro h; exact extractCurrencyAt_default h
  · intro row f fo e hlen hb
    cases e with
    | valueError => rfl
    | indexError => exact absurd hb (buildRecord_not_index hlen)

/-- witness for C8 on a 3-column row: everything from purchase_value on
is defaulted. -/
theorem c8_short_row_defaults_witness :
    3 ≤ ([some "1", some "2.0", some "Aug 09, 2023"] : List Cell).length ∧
    (([some "1", some "2.0", some "Aug 09, 2023"] : List Cell).length ≤ 3 →
      ({ fund_name := none, folio_number := none, transaction_number := 1,
         units := ⟨20, 1⟩, purchase_date := some ⟨2023, 8, 9⟩,
         purchase_value := ⟨0, 0⟩, purchase_nav := ⟨0, 0⟩,
         redemption_date := none, redemption_value := ⟨0, 0⟩,
         redemption_nav := ⟨0, 0⟩, stcg := ⟨0, 0⟩,
         ltcg := ⟨0, 0⟩ } : TransactionRecord).purchase_value = ⟨0, 0⟩) :=
  ⟨((c8_short_row_defaults.1 [some "1", some "2.0", some "Aug 09, 2023"]
      none none _ (by decide) rfl)).1,
   ((c8_short_row_defaults.1 [some "1", some "2.0", some "Aug 09, 2023"]
      none none _ (by decide) rfl)).2.1⟩

/-- counterexample to C9: the classifier admits the all-digit cell "0"
and the emitted record carries transaction_number 0, which is not a
positive integer. -/
theorem c9_zero_transaction_number :
    (parse_excel_data [[some "0", some "1.0", some "Aug 09, 2023"]]).map
      (fun r => r.transaction_number) = [0] := by decide

/-- C9 (amended): for every emitted record, transaction_number is the
non-negative integer read from cell 0 of its row, which the classifier
admitted exactly because that cell is present and consists solely of
digits (the all-digit cell "0" is admitted, so the number can be 0). -/
theorem c9_transaction_number_provenance :
    ∀ (row : List Cell) (f fo : Option String) (r : TransactionRecord),
      buildRecord row f fo = .ok (some r) →
      ∃ t0 : String, iloc row 0 = .ok (some t0) ∧
        pyIsdigit (trimL t0.toList) = true ∧
        r.transaction_number = digitsVal (trimL t0.toList) := by
  intro row f fo r hb
  obtain ⟨t0, u, d, pnav, rnav, h0, hd, hu, hp, h4, h10, hrec⟩ :=
    buildRecord_emit hb
  exact ⟨t0, h0, hd, by rw [hrec]⟩

/-- witness for C9 at a concrete emitted record. -/
theorem c9_transaction_number_provenance_witness :
    ∃ t0 : String,
      iloc [some "12", some "1.0", some "Aug 09, 2023"] 0 = .ok (some t0) ∧
      pyIsdigit (trimL t0.toList) = true ∧
      ({ fund_name := none, folio_number := none, transaction_number := 12,
         units := ⟨10, 1⟩, purchase_date := some ⟨2023, 8, 9⟩,
         purchase_value := ⟨0, 0⟩, purchase_nav := ⟨0, 0⟩,
         redemption_date := none, redemption_value := ⟨0, 0⟩,
         redemption_nav := ⟨0, 0⟩, stcg := ⟨0, 0⟩,
         ltcg := ⟨0, 0⟩ } : TransactionRecord).transaction_number =
        digitsVal (trimL t0.toList) :=
  c9_transaction_number_provenance [some "12", some "1.0", some "Aug 09, 2023"]
    none none _ rfl

/-- the row used in C10: a valid transaction whose redemption-date cell
(cell 8) is symbolic nonempty text, with nonzero redemption_value, stcg
and ltcg cells. -/
def c10Row (s : String) : List Cell :=
  [some "1", some "2.0", some "Aug 09, 2023", none, none, none, none, none,
   some s, some "₹5,000.00", none, some "₹100.00", some "₹200.00"]

/-- the record C10's row produces when cell 8 fails date parsing. -/
def c10Rec (f fo : Option String) : TransactionRecord :=
  { fund_name := f, folio_number := fo, transaction_number := 1,
    units := ⟨20, 1⟩, purchase_date := some ⟨2023, 8, 9⟩,
    purchase_value := ⟨0, 0⟩, purchase_nav := ⟨0, 0⟩, redemption_date := none,
    redemption_value := ⟨500000, 2⟩, redemption_nav := ⟨0, 0⟩,
    stcg := ⟨10000, 2⟩, ltcg := ⟨20000, 2⟩ }

/-- C10: on every row, a non-empty redemption-date cell (cell 8) that
fails every date format yields a null redemption date; every emitted
record from such a row carries redemption_date null, and the record is
still built — overwriting cell 8 of any emitted row with such text
re-emits the record with redemption_date null and every other field
unchanged.  Any record with a null redemption date — whatever its
redemption_value, stcg or ltcg — is excluded from the realized set and
from both period sets of every record list, and contributes nothing to
the period sets, the summary counts or the fund-wise reports wherever it
appears. -/
theorem c10_unparseable_redemption_excluded :
    (∀ (row : List Cell) (s : String),
      cellAt row 8 = some s → trimL s.toList ≠ [] →
      parse_date (String.mk (trimL s.toList)) = none →
      extractRedemptionDate row = none) ∧
    (∀ (row : List Cell) (f fo : Option String) (r : TransactionRecord)
        (s : String),
      buildRecord row f fo = .ok (some r) →
      cellAt row 8 = some s → trimL s.toList ≠ [] →
      parse_date (String.mk (trimL s.toList)) = none →
      r.redemption_date = none) ∧
    (∀ (row : List Cell) (f fo : Option String) (r : TransactionRecord)
        (g : String),
      buildRecord row f fo = .ok (some r) →
      trimL g.toList ≠ [] →
      parse_date (String.mk (trimL g.toList)) = none →
      buildRecord (row.set 8 (some g)) f fo = .ok (some
        { r with redemption_date := none })) ∧
    (∀ (r : TransactionRecord) (l : List TransactionRecord),
      r.redemption_date = none →
      r ∉ redeemedTransactions l ∧ r ∉ beforeJuly23 l ∧ r ∉ afterJuly23 l) ∧
    (∀ (l₁ l₂ : List TransactionRecord) (r : TransactionRecord),
      r.redemption_date = none →
      redeemedTransactions (l₁ ++ r :: l₂) = redeemedTransactions (l₁ ++ l₂) ∧
      beforeJuly23 (l₁ ++ r :: l₂) = beforeJuly23 (l₁ ++ l₂) ∧
      afterJuly23 (l₁ ++ r :: l₂) = afterJuly23 (l₁ ++ l₂) ∧
      summaryTransactionCounts (l₁ ++ r :: l₂) =
        summaryTransactionCounts (l₁ ++ l₂) ∧
      generate_fund_wise_report (beforeJuly23 (l₁ ++ r :: l₂)) =
        generate_fund_wise_report (beforeJuly23 (l₁ ++ l₂)) ∧
      generate_fund_wise_report (afterJuly23 (l₁ ++ r :: l₂)) =
        generate_fund_wise_report (afterJuly23 (l₁ ++ l₂))) := by
  refine ⟨?_, ?_, ?_, ?_, ?_⟩
  · intro row s hc hne hpd
    exact extractRedemptionDate_none_of_bad hc hne hpd
  · intro row f fo r s hb hc hne hpd
    obtain ⟨t0, u, d, pnav, rnav, h0, hd, hu, hp, h4, h10, hrec⟩ :=
      buildRecord_emit hb
    rw [hrec]
    exact extractRedemptionDate_none_of_bad hc hne hpd
  · intro row f fo r g hb hne hpd
    obtain ⟨t0, u, d, pnav, rnav, h0, hd, hu, hp, h4, h10, hrec⟩ :=
      buildRecord_emit hb
    have h0' : iloc (row.set 8 (some g)) 0 = .ok (some t0) := by
      rw [iloc_set_ne (show (8 : Nat) ≠ 0 by decide)]; exact h0
    have hu' : extractUnits (row.set 8 (some g)) = .ok u := by
      rw [extractUnits_set (show (8 : Nat) ≠ 1 by decide)]; exact hu
    have hp' : extractPurchaseDate (row.set 8 (some g)) = .ok (some d) := by
      rw [extractPurchaseDate_set (show (8 : Nat) ≠ 2 by decide)]; exact hp
    have h4' : extractNav (row.set 8 (some g)) 4 = .ok pnav := by
      rw [extractNav_set (show (8 : Nat) ≠ 4 by decide)]; exact h4
    have h10' : extractNav (row.set 8 (some g)) 10 = .ok rnav := by
      rw [extractNav_set (show (8 : Nat) ≠ 10 by decide)]; exact h10
    rw [buildRecord_build f fo h0' hd hu' hp' h4' h10',
      extractRedemptionDate_set_bad hne hpd,
      extractCurrencyAt_set_ne (show (8 : Nat) ≠ 3 by decide),
      extractCurrencyAt_set_ne (show (8 : Nat) ≠ 9 by decide),
      extractCurrencyAt_set_ne (show (8 : Nat) ≠ 11 by decide),
      extractCurrencyAt_set_ne (show (8 : Nat) ≠ 12 by decide), hrec]
  · intro r l hrd
    have hnr : r ∉ redeemedTransactions l := by
      intro hmem
      have h2 := (List.mem_filter.mp hmem).2
      rw [hrd] at h2
      simp at h2
    refine ⟨hnr, ?_, ?_⟩
    · intro hmem
      exact hnr (List.mem_filter.mp hmem).1
    · intro hmem
      exact hnr (List.mem_filter.mp hmem).1
  · intro l₁ l₂ r hrd
    have h1 : redeemedTransactions (l₁ ++ r :: l₂) =
        redeemedTransactions (l₁ ++ l₂) := by
      unfold redeemedTransactions validTransactions
      rw [List.filter_filter, List.filter_filter]
      exact filter_drop_middle _ l₁ l₂ r (by simp [hrd])
    have h2 : beforeJuly23 (l₁ ++ r :: l₂) = beforeJuly23 (l₁ ++ l₂) := by
      unfold beforeJuly23; rw [h1]
    have h3 : afterJuly23 (l₁ ++ r :: l₂) = afterJuly23 (l₁ ++ l₂) := by
      unfold afterJuly23; rw [h1]
    exact ⟨h1, h2, h3, by unfold summaryTransactionCounts; rw [h2, h3],
      by rw [h2], by rw [h3]⟩

/-- witness for C10 at the undateable cell text "99/99/9999": the cell
reads as null, the record emitted from such a row has a null redemption
date, corrupting cell 8 of a redeemed row re-emits it as unredeemed, and
the record is invisible to the realized set and the summary counts. -/
theorem c10_unparseable_redemption_excluded_witness :
    extractRedemptionDate (c10Row "99/99/9999") = none ∧
    (c10Rec none none).redemption_date = none ∧
    buildRecord ((c10Row "Jul 01, 2024").set 8 (some "99/99/9999"))
      none none = .ok (some (c10Rec none none)) ∧
    c10Rec none none ∉ redeemedTransactions [c10Rec none none] ∧
    summaryTransactionCounts ([] ++ c10Rec none none :: []) =
      summaryTransactionCounts ([] ++ []) :=
  ⟨c10_unparseable_redemption_excluded.1 (c10Row "99/99/9999") "99/99/9999"
      (by decide) (by decide) (by decide),
   c10_unparseable_redemption_excluded.2.1 (c10Row "99/99/9999") none none
      (c10Rec none none) "99/99/9999" rfl (by decide) (by decide) (by decide),
   c10_unparseable_redemption_excluded.2.2.1 (c10Row "Jul 01, 2024") none none
      { c10Rec none none with redemption_date := some ⟨2024, 7, 1⟩ }
      "99/99/9999" rfl (by decide) (by decide),
   (c10_unparseable_redemption_excluded.2.2.2.1 (c10Rec none none)
      [c10Rec none none] rfl).1,
   (c10_unparseable_redemption_excluded.2.2.2.2 [] [] (c10Rec none none)
      rfl).2.2.2.1⟩

end Kuvera
